import Mathlib

/-!
Shallow embedding of pyautogit screens (repo_control_screen.py and settings_screen.py).

The screens mutate a collection of UI widgets (selectable menus, text blocks, text
boxes) and call the pyautogit.commands Command Runner, which returns a pair of
output text and an integer status code.  We model the widget state as an explicit
record, the Command Runner as a record of result-valued fields (one per operation
used), and each screen method as a function from state to state paired with the
ordered list of observable events it produces (Command Runner invocations and
popups).  Python string primitives are modelled on the character list of the
string so that every definition reduces inside the kernel.
-/

/-- Python str.startswith, on the character list of the string. -/
def startswith (s p : String) : Bool := p.data.isPrefixOf s.data

/-- Python str.endswith, on the character list of the string. -/
def endswith (s p : String) : Bool := p.data.isSuffixOf s.data

/-- Python slicing s[n:]. -/
def sliceFrom (s : String) (n : Nat) : String := String.mk (s.data.drop n)

/-- helper for splitlines: split a character list at newline characters. -/
def splitOnNl : List Char → List (List Char)
  | [] => [[]]
  | c :: rest =>
    if c = '\n' then [] :: splitOnNl rest
    else
      match splitOnNl rest with
      | [] => [[c]]
      | g :: gs => (c :: g) :: gs

/-- Python str.splitlines for newline-separated text: the empty string yields no
lines, and a trailing newline does not produce a final empty line. -/
def splitlines (s : String) : List String :=
  if s.data = [] then []
  else
    let parts := splitOnNl s.data
    let parts := if s.data.getLast? = some '\n' then parts.dropLast else parts
    parts.map String.mk

/-- Python os.path.join for the POSIX convention: an absolute second component
replaces the first, otherwise the components are joined with a separator. -/
def pathJoin (a b : String) : String :=
  if startswith b "/" then b
  else if a = "" || endswith a "/" then a ++ b
  else a ++ "/" ++ b

/-- Python formatting of an optional string: None prints as the text None. -/
def pyFormat : Option String → String
  | some s => s
  | none => "None"

/-- selectable list widget: the py_cui ScrollMenu surface used by the screens,
an ordered item list together with the selected index. -/
structure Menu where
  items : List String
  selected_item : Nat

deriving instance DecidableEq for Menu

/-- py_cui ScrollMenu.clear: empties the item list and resets the selection to 0. -/
def Menu.clear (_ : Menu) : Menu := ⟨[], 0⟩

/-- py_cui ScrollMenu.add_item_list: appends the given items. -/
def Menu.add_item_list (m : Menu) (l : List String) : Menu :=
  { m with items := m.items ++ l }

/-- py_cui ScrollMenu.get: the selected item, none when the list is empty or the
index is out of range. -/
def Menu.get (m : Menu) : Option String := m.items[m.selected_item]?

/-- py_cui ScrollMenu.get_item_list. -/
def Menu.get_item_list (m : Menu) : List String := m.items

/-- Command Runner results, one field per pyautogit.commands operation consumed by
the modelled screen: each is the pair of output text and integer status code the
call would return.  Remote names read from a menu may be absent, hence the
Option-typed arguments. -/
structure Commands where
  git_status_short : String × Int
  git_get_remotes : String × Int
  git_get_branches : String × Int
  git_get_remote_info : Option String → String × Int
  git_get_recent_commits : String → String × Int
  git_log : String → String × Int
  git_add_remote : Option String → String → String × Int
  git_add_file : String → String × Int
  git_reset_file : String → String × Int
  git_commit_changes : String → String × Int
  git_pull_branch : String → Option String → String × Int
  git_push_to_branch : String → Option String → String × Int
  git_create_new_branch : String → String × Int
  open_default_editor : String → String → String × Int

/-- observable effects of a screen method, in order: Command Runner invocations,
popups shown by the UI toolkit, and busy-indicator transitions. -/
inductive Event where
  | cmdStatusShort : Event
  | cmdGetRemotes : Event
  | cmdGetBranches : Event
  | cmdGetRemoteInfo : Option String → Event
  | cmdGetRecentCommits : String → Event
  | cmdLog : String → Event
  | cmdAddRemote : Option String → String → Event
  | cmdAddFile : String → Event
  | cmdResetFile : String → Event
  | cmdCommit : String → Event
  | cmdPullBranch : String → Option String → Event
  | cmdPushBranch : String → Option String → Event
  | cmdCreateBranch : String → Event
  | cmdOpenEditor : String → String → Event
  | errorPopup : String → String → Event
  | messagePopup : String → String → Event
  | textBoxPopup : String → Event
  | credentialPrompt : Event
  | loadingStart : String → Event
  | loadingStop : Event

deriving instance DecidableEq for Event

/-- events that are pull invocations. -/
def Event.isPull : Event → Bool
  | .cmdPullBranch _ _ => true
  | _ => false

/-- events that are push invocations. -/
def Event.isPush : Event → Bool
  | .cmdPushBranch _ _ => true
  | _ => false

/-- events that are credential prompt sequences. -/
def Event.isCred : Event → Bool
  | .credentialPrompt => true
  | _ => false

/-- events that are create-branch invocations. -/
def Event.isCreate : Event → Bool
  | .cmdCreateBranch _ => true
  | _ => false

/-- events that are Command Runner invocations of any kind, as opposed to pure UI
events. -/
def Event.isCmd : Event → Bool
  | .cmdStatusShort | .cmdGetRemotes | .cmdGetBranches => true
  | .cmdGetRemoteInfo _ | .cmdGetRecentCommits _ | .cmdLog _ => true
  | .cmdAddRemote _ _ | .cmdAddFile _ | .cmdResetFile _ => true
  | .cmdCommit _ | .cmdPullBranch _ _ | .cmdPushBranch _ _ => true
  | .cmdCreateBranch _ | .cmdOpenEditor _ _ => true
  | _ => false

/-- events a panel refresh can emit: the query commands and popups. -/
def Event.isQueryish : Event → Bool
  | .cmdStatusShort | .cmdGetRemotes | .cmdGetBranches => true
  | .cmdGetRemoteInfo _ | .cmdGetRecentCommits _ | .cmdLog _ => true
  | .errorPopup _ _ | .messagePopup _ _ => true
  | _ => false

/-- mutable state of RepoControlManager together with the widgets of its screen:
the four panels, the info text block (text and title), the two text boxes, the
credential flag of the top manager, the configured external editor, the single
scratch slot utility_var, and the push scratch fields message and status. -/
structure RepoState where
  branch_menu : Menu
  remotes_menu : Menu
  add_files_menu : Menu
  commits_menu : Menu
  info_text : String
  info_title : String
  commit_message_box : String
  new_branch_textbox : String
  credentials_entered : Bool
  default_editor : Option String
  utility_var : Option String
  message : String
  status : Int

deriving instance DecidableEq for RepoState

/-- RepoControlManager.get_repo_status_short (repo_control_screen.py lines 70 to 76). -/
def get_repo_status_short (c : Commands) (st : RepoState) : RepoState × List Event :=
  let out := c.git_status_short.1
  let err := c.git_status_short.2
  if err < 0 then
    (st, [Event.cmdStatusShort, Event.errorPopup "Cannot get git status" out])
  else
    ({ st with add_files_menu := (st.add_files_menu.clear).add_item_list (splitlines out) },
     [Event.cmdStatusShort])

/-- RepoControlManager.get_repo_remotes (repo_control_screen.py lines 79 to 85). -/
def get_repo_remotes (c : Commands) (st : RepoState) : RepoState × List Event :=
  let out := c.git_get_remotes.1
  let err := c.git_get_remotes.2
  if err < 0 then
    (st, [Event.cmdGetRemotes, Event.errorPopup "Cannot get git remotes" out])
  else
    ({ st with remotes_menu := (st.remotes_menu.clear).add_item_list (splitlines out) },
     [Event.cmdGetRemotes])

/-- the selection scan of get_repo_branches: starting from 0, the counter advances
past every entry until one starts with the current marker; when no entry matches,
the loop leaves the counter at the length of the list. -/
def scanBranch : List String → Nat
  | [] => 0
  | b :: rest => if startswith b "*" then 0 else scanBranch rest + 1

/-- RepoControlManager.get_repo_branches (repo_control_screen.py lines 88 to 100). -/
def get_repo_branches (c : Commands) (st : RepoState) : RepoState × List Event :=
  let out := c.git_get_branches.1
  let err := c.git_get_branches.2
  if err < 0 then
    (st, [Event.cmdGetBranches, Event.errorPopup "Cannot get git branches" out])
  else
    let m := (st.branch_menu.clear).add_item_list (splitlines out)
    ({ st with branch_menu := { m with selected_item := scanBranch m.items } },
     [Event.cmdGetBranches])

/-- RepoControlManager.show_remote_info (repo_control_screen.py lines 103 to 113). -/
def show_remote_info (c : Commands) (st : RepoState) : RepoState × List Event :=
  match st.branch_menu.get with
  | none => (st, [])
  | some _ =>
    let remote := st.remotes_menu.get
    let out := (c.git_get_remote_info remote).1
    let err := (c.git_get_remote_info remote).2
    if err < 0 then
      (st, [Event.cmdGetRemoteInfo remote, Event.errorPopup "Cannot get remote info" out])
    else
      ({ st with info_text := out, info_title := pyFormat remote ++ " remote info" },
       [Event.cmdGetRemoteInfo remote])

/-- RepoControlManager.get_recent_commits (repo_control_screen.py lines 116 to 126). -/
def get_recent_commits (c : Commands) (st : RepoState) : RepoState × List Event :=
  match st.branch_menu.get with
  | none => (st, [])
  | some sel =>
    let branch := sliceFrom sel 2
    let out := (c.git_get_recent_commits branch).1
    let err := (c.git_get_recent_commits branch).2
    if err < 0 then
      (st, [Event.cmdGetRecentCommits branch, Event.errorPopup "Cannot get recent commits" out])
    else
      ({ st with commits_menu := (st.commits_menu.clear).add_item_list (splitlines out) },
       [Event.cmdGetRecentCommits branch])

/-- RepoControlManager.show_log (repo_control_screen.py lines 130 to 139). -/
def show_log (c : Commands) (st : RepoState) : RepoState × List Event :=
  match st.branch_menu.get with
  | none => (st, [])
  | some sel =>
    let branch := sliceFrom sel 2
    let out := (c.git_log branch).1
    let err := (c.git_log branch).2
    if err < 0 then
      (st, [Event.cmdLog branch,
            Event.errorPopup ("Unable to show git log for branch " ++ branch ++ ".") out])
    else
      ({ st with info_text := out, info_title := "Git log" }, [Event.cmdLog branch])

/-- RepoControlManager.refresh_git_status (repo_control_screen.py lines 35 to 48):
snapshot the selected indices of the remotes and changed-files panels, refresh the
four panels, then restore each snapshot only when it is still below the new item
count. -/
def refresh_git_status (c : Commands) (st : RepoState) : RepoState × List Event :=
  let remote := st.remotes_menu.selected_item
  let selected_file := st.add_files_menu.selected_item
  let r1 := get_repo_branches c st
  let r2 := get_repo_remotes c r1.1
  let r3 := get_repo_status_short c r2.1
  let r4 := get_recent_commits c r3.1
  let st5 :=
    if remote < r4.1.remotes_menu.get_item_list.length then
      { r4.1 with remotes_menu := { r4.1.remotes_menu with selected_item := remote } }
    else r4.1
  let st6 :=
    if selected_file < st5.add_files_menu.get_item_list.length then
      { st5 with add_files_menu := { st5.add_files_menu with selected_item := selected_file } }
    else st5
  (st6, r1.2 ++ r2.2 ++ r3.2 ++ r4.2)

/-- RepoControlManager.add_remote (repo_control_screen.py lines 51 to 59): the
remote name was captured earlier into utility_var, which is consumed here. -/
def add_remote (c : Commands) (st : RepoState) (remote_url : String) : RepoState × List Event :=
  let remote_name := st.utility_var
  let st0 := { st with utility_var := none }
  let out := (c.git_add_remote remote_name remote_url).1
  let err := (c.git_add_remote remote_name remote_url).2
  if err < 0 then
    (st0, [Event.cmdAddRemote remote_name remote_url, Event.errorPopup "Failed to add remote" out])
  else
    let st1 := { st0 with remotes_menu := st0.remotes_menu.clear }
    let r := refresh_git_status c st1
    (r.1, Event.cmdAddRemote remote_name remote_url :: r.2)

/-- RepoControlManager.ask_new_remote_url (repo_control_screen.py lines 61 to 63):
stores the captured name and prompts for the url. -/
def ask_new_remote_url (st : RepoState) (remote_name : String) : RepoState × List Event :=
  ({ st with utility_var := some remote_name },
   [Event.textBoxPopup "Please enter the new remote url."])

/-- RepoControlManager.ask_new_remote_name (repo_control_screen.py lines 65 to 66). -/
def ask_new_remote_name (st : RepoState) : RepoState × List Event :=
  (st, [Event.textBoxPopup "Please enter the new remote name."])

/-- the end-to-end add-remote interaction: the name prompt is answered with
remote_name, the url prompt is answered with remote_url, and add_remote runs as
the final callback. -/
def add_remote_flow (c : Commands) (st : RepoState) (remote_name remote_url : String) :
    RepoState × List Event :=
  let r1 := ask_new_remote_name st
  let r2 := ask_new_remote_url r1.1 remote_name
  let r3 := add_remote c r2.1 remote_url
  (r3.1, r1.2 ++ r2.2 ++ r3.2)

/-- RepoControlManager.add_revert_file (repo_control_screen.py lines 187 to 196);
the source reads the selected entry without a guard, so the model is given only
for a present selection and returns the state unchanged otherwise. -/
def add_revert_file (c : Commands) (st : RepoState) : RepoState × List Event :=
  match st.add_files_menu.get with
  | none => (st, [])
  | some filename =>
    let toStage := startswith filename " " || startswith filename "?"
    let out := if toStage then (c.git_add_file (sliceFrom filename 3)).1
               else (c.git_reset_file (sliceFrom filename 3)).1
    let err := if toStage then (c.git_add_file (sliceFrom filename 3)).2
               else (c.git_reset_file (sliceFrom filename 3)).2
    let ev := if toStage then Event.cmdAddFile (sliceFrom filename 3)
              else Event.cmdResetFile (sliceFrom filename 3)
    if err < 0 then
      (st, [ev, Event.errorPopup ("Cannot add/revert file " ++ filename) out])
    else
      let r := refresh_git_status c st
      (r.1, ev :: r.2)

/-- Modelled from the spec: ask_credentials and were_credentials_entered belong to
the top-level manager (pyautogit package init), whose source is not included.
Spec section 4.3: credentials are checked via a boolean predicate; when absent, a
prompt pair is shown whose completion callback is the original requested
operation, re-invoked once the predicate holds. -/
def ask_credentials (st : RepoState) (callback : RepoState → RepoState × List Event) :
    RepoState × List Event :=
  let st1 := { st with credentials_entered := true }
  let r := callback st1
  (r.1, Event.credentialPrompt :: r.2)

/-- RepoControlManager.pull_repo_branch (repo_control_screen.py lines 205 to 215);
given only for a present branch selection, as for add_revert_file. -/
def pull_repo_branch (c : Commands) (st : RepoState) : RepoState × List Event :=
  match st.branch_menu.get with
  | none => (st, [])
  | some sel =>
    let branch := sliceFrom sel 2
    let remote := st.remotes_menu.get
    let out := (c.git_pull_branch branch remote).1
    let err := (c.git_pull_branch branch remote).2
    let mid : RepoState × List Event :=
      if err ≠ 0 then (st, [Event.errorPopup "Failed to pull from remote" out])
      else
        ({ st with info_text := out,
                   info_title := "Git Pull Status - " ++ pyFormat remote ++ " - " ++ branch },
         [Event.messagePopup "Pulled branch"
            ("Successfully pulled branch " ++ branch ++ " from remote " ++ pyFormat remote)])
    let r := refresh_git_status c mid.1
    (r.1, Event.cmdPullBranch branch remote :: mid.2 ++ r.2)

/-- RepoControlManager.pull_repo_branch_cred (repo_control_screen.py lines 198 to 202). -/
def pull_repo_branch_cred (c : Commands) (st : RepoState) : RepoState × List Event :=
  if !st.credentials_entered then
    ask_credentials st (pull_repo_branch c)
  else
    pull_repo_branch c st

/-- RepoControlManager.commit (repo_control_screen.py lines 218 to 227): the
message box is cleared after the attempt, on the success and the failure path
alike. -/
def commit (c : Commands) (st : RepoState) : RepoState × List Event :=
  let commit_message := st.commit_message_box
  let out := (c.git_commit_changes commit_message).1
  let err := (c.git_commit_changes commit_message).2
  let mid : RepoState × List Event :=
    if err ≠ 0 then (st, [Event.errorPopup "Commit failed!" out])
    else
      let r := refresh_git_status c st
      let r2 := show_log c r.1
      (r2.1, Event.messagePopup "Success" ("Committed: " ++ commit_message) :: r.2 ++ r2.2)
  ({ mid.1 with commit_message_box := "" }, Event.cmdCommit commit_message :: mid.2)

/-- RepoControlManager.push_repo_branch (repo_control_screen.py lines 238 to 244);
given only for a present branch selection. -/
def push_repo_branch (c : Commands) (st : RepoState) : RepoState × List Event :=
  match st.branch_menu.get with
  | none => (st, [])
  | some sel =>
    let branch := sliceFrom sel 2
    let remote := st.remotes_menu.get
    let msg := (c.git_push_to_branch branch remote).1
    let code := (c.git_push_to_branch branch remote).2
    let st1 := { st with message := msg, status := code }
    let r := refresh_git_status c st1
    let st2 := { r.1 with info_text := msg }
    (st2, Event.cmdPushBranch branch remote :: r.2 ++ [Event.loadingStop])

/-- RepoControlManager.show_push_result (repo_control_screen.py lines 247 to 253). -/
def show_push_result (st : RepoState) : RepoState × List Event :=
  let ev := if st.status ≠ 0 then Event.errorPopup "Unable to push to remote!" st.message
            else Event.messagePopup "Pushed Successfully" st.message
  ({ st with status := 0, message := "" }, [ev])

/-- Modelled from the spec: perform_long_operation is the Async Task Runner of the
top-level manager, whose source is not included.  Spec section 4.4: show a busy
indicator with the given label, run the work, then run the completion callback. -/
def perform_long_operation (label : String) (work on_done : RepoState → RepoState × List Event)
    (st : RepoState) : RepoState × List Event :=
  let r1 := work st
  let r2 := on_done r1.1
  (r2.1, Event.loadingStart label :: r1.2 ++ r2.2)

/-- RepoControlManager.push_repo_branch_cred (repo_control_screen.py lines 231 to 235). -/
def push_repo_branch_cred (c : Commands) (st : RepoState) : RepoState × List Event :=
  if !st.credentials_entered then
    ask_credentials st (perform_long_operation "Pushing" (push_repo_branch c) show_push_result)
  else
    perform_long_operation "Pushing" (push_repo_branch c) show_push_result st

/-- RepoControlManager.create_new_branch (repo_control_screen.py lines 256 to 267). -/
def create_new_branch (c : Commands) (st : RepoState) : RepoState × List Event :=
  let new_branch_name := st.new_branch_textbox
  if new_branch_name.length = 0 then
    (st, [Event.errorPopup "ERROR - Illegal branchname" "Please enter a valid branchname."])
  else
    let out := (c.git_create_new_branch new_branch_name).1
    let err := (c.git_create_new_branch new_branch_name).2
    let popupTr := if err ≠ 0 then [Event.errorPopup "Failed to create branch" out] else []
    let st1 := { st with new_branch_textbox := "" }
    let r := refresh_git_status c st1
    (r.1, Event.cmdCreateBranch new_branch_name :: popupTr ++ r.2)

/-- RepoControlManager.open_editor (repo_control_screen.py lines 161 to 172); cwd
stands for os.getcwd().  The let binding mirrors the source line that joins the
path yet never uses the result: the launch receives the directory. -/
def open_editor (c : Commands) (st : RepoState) (cwd : String) (file : Option String) :
    RepoState × List Event :=
  match st.default_editor with
  | none => (st, [Event.errorPopup "Error" "No default editor specified."])
  | some editor =>
    let current_path := cwd
    let _joined := match file with
      | some f => pathJoin current_path f
      | none => current_path
    let out := (c.open_default_editor editor current_path).1
    let err := (c.open_default_editor editor current_path).2
    if err ≠ 0 then
      (st, [Event.cmdOpenEditor editor current_path, Event.errorPopup "Failed to open editor." out])
    else
      (st, [Event.cmdOpenEditor editor current_path,
            Event.messagePopup ("Opened " ++ current_path)
              ("Opened " ++ editor ++ " editor in external window")])

/-- state of the settings screen (settings_screen.py): the editor type and command
of the top manager, the settings info log panel, the ambient logger state, and
the two status labels. -/
structure SettingsState where
  editor_type : String
  default_editor : Option String
  settings_info_text : String
  log_enabled : Bool
  log_file_path : String
  debug_log_status_label : String
  editor_status_label : String

deriving instance DecidableEq for SettingsState

/-- SettingsScreen.add_to_settings_log (settings_screen.py lines 73 to 82). -/
def add_to_settings_log (st : SettingsState) (text : String) : SettingsState :=
  { st with settings_info_text := text ++ "\n" ++ st.settings_info_text }

/-- SettingsScreen.refresh_status (settings_screen.py lines 169 to 179). -/
def refresh_status (st : SettingsState) : SettingsState :=
  let logging_on_off := if st.log_enabled then "ON" else "OFF"
  { st with
    debug_log_status_label := logging_on_off ++ " - " ++ st.log_file_path,
    editor_status_label := st.editor_type ++ " - " ++ pyFormat st.default_editor }

/-- SettingsScreen.toggle_editor_type (settings_screen.py lines 108 to 117). -/
def toggle_editor_type (st : SettingsState) : SettingsState :=
  let st1 :=
    if st.editor_type = "Internal" then { st with editor_type := "External" }
    else { st with editor_type := "Internal" }
  refresh_status (add_to_settings_log st1 "Swapped editor type")

/-- a Command Runner in which every operation succeeds. -/
def cOk : Commands where
  git_status_short := (" M a.txt\nM  b.txt", 0)
  git_get_remotes := ("origin", 0)
  git_get_branches := ("* main\n  dev", 0)
  git_get_remote_info := fun _ => ("remote info text", 0)
  git_get_recent_commits := fun _ => ("abc123 commit", 0)
  git_log := fun _ => ("log text", 0)
  git_add_remote := fun _ _ => ("", 0)
  git_add_file := fun _ => ("", 0)
  git_reset_file := fun _ => ("", 0)
  git_commit_changes := fun _ => ("", 0)
  git_pull_branch := fun _ _ => ("", 0)
  git_push_to_branch := fun _ _ => ("", 0)
  git_create_new_branch := fun _ => ("", 0)
  open_default_editor := fun _ _ => ("", 0)

/-- a Command Runner in which every operation fails with a negative query status. -/
def cFail : Commands where
  git_status_short := ("boom", -1)
  git_get_remotes := ("boom", -1)
  git_get_branches := ("boom", -1)
  git_get_remote_info := fun _ => ("boom", -1)
  git_get_recent_commits := fun _ => ("boom", -1)
  git_log := fun _ => ("boom", -1)
  git_add_remote := fun _ _ => ("boom", -1)
  git_add_file := fun _ => ("boom", -1)
  git_reset_file := fun _ => ("boom", -1)
  git_commit_changes := fun _ => ("boom", -1)
  git_pull_branch := fun _ _ => ("boom", -1)
  git_push_to_branch := fun _ _ => ("boom", -1)
  git_create_new_branch := fun _ => ("boom", -1)
  open_default_editor := fun _ _ => ("boom", -1)

/-- branch output in which no entry carries the current marker. -/
def cNoStar : Commands := { cOk with git_get_branches := ("  main\n  dev", 0) }

/-- branch output whose first entry carries the current marker. -/
def cStarFirst : Commands := { cOk with git_get_branches := ("* main\n  dev", 0) }

/-- branch output whose second entry carries the current marker. -/
def cStarSecond : Commands := { cOk with git_get_branches := ("  main\n* dev", 0) }

/-- remotes output with two entries. -/
def cTwoRemotes : Commands := { cOk with git_get_remotes := ("o1\no2", 0) }

/-- stage command failing with a negative status. -/
def cAddNeg : Commands := { cOk with git_add_file := fun _ => ("boom", -1) }

/-- add-remote failing with a positive status while the remotes query succeeds with
a list different from the prior one. -/
def cRemPos : Commands :=
  { cOk with git_add_remote := fun _ _ => ("boom", 1), git_get_remotes := ("o1\no2", 0) }

/-- a concrete screen state: branch main checked out, one remote, two changed
files, credentials not yet entered, an external editor configured. -/
def stEx : RepoState where
  branch_menu := ⟨["* main", "  dev"], 0⟩
  remotes_menu := ⟨["origin"], 0⟩
  add_files_menu := ⟨[" M a.txt", "M  b.txt"], 0⟩
  commits_menu := ⟨[], 0⟩
  info_text := "old info"
  info_title := "old title"
  commit_message_box := "my message"
  new_branch_textbox := "feature-x"
  credentials_entered := false
  default_editor := some "vim"
  utility_var := none
  message := ""
  status := 0

/-- stEx with a remotes panel of three entries and the third one selected. -/
def stShrink : RepoState := { stEx with remotes_menu := ⟨["r0", "r1", "r2"], 2⟩ }

/-- a concrete settings screen state with the internal editor type. -/
def sEx : SettingsState where
  editor_type := "Internal"
  default_editor := some "vim"
  settings_info_text := ""
  log_enabled := false
  log_file_path := "p.log"
  debug_log_status_label := ""
  editor_status_label := ""

/-- branch panel selection after a successful branch refresh: every entry below
the selected index lacks the current marker, the selected entry carries it when
the index is in range, and the index equals the item count exactly when no entry
carries the marker; the two concrete examples of the claim are included. -/
def BranchSelSpec (c : Commands) (st : RepoState) : Prop :=
  let m := ((get_repo_branches c st).1).branch_menu
  (∀ j, j < m.selected_item → ∀ b, m.items[j]? = some b → startswith b "*" = false)
  ∧ (∀ b, m.items[m.selected_item]? = some b → startswith b "*" = true)
  ∧ (m.selected_item = m.items.length ↔ ∀ b ∈ m.items, startswith b "*" = false)
  ∧ m.selected_item ≤ m.items.length
  ∧ ((get_repo_branches cStarFirst st).1).branch_menu.selected_item = 0
  ∧ ((get_repo_branches cStarSecond st).1).branch_menu.selected_item = 1

/-- selection of the remotes and changed-files panels after a refresh in which
both backing queries succeed: the prior index is restored when still below the
new item count and is otherwise 0, the reset left by the panel clear; the index
is never outside the new range. -/
def SelRestoreSpec (c : Commands) (st : RepoState) : Prop :=
  let st2 := (refresh_git_status c st).1
  st2.remotes_menu.selected_item =
    (if st.remotes_menu.selected_item < (splitlines c.git_get_remotes.1).length
     then st.remotes_menu.selected_item else 0)
  ∧ st2.add_files_menu.selected_item =
    (if st.add_files_menu.selected_item < (splitlines c.git_status_short.1).length
     then st.add_files_menu.selected_item else 0)
  ∧ (st2.remotes_menu.items = [] ∨ st2.remotes_menu.selected_item < st2.remotes_menu.items.length)
  ∧ (st2.add_files_menu.items = [] ∨ st2.add_files_menu.selected_item < st2.add_files_menu.items.length)

/-- dispatch of the add/revert action on the selected entry f: an entry starting
with a space or a question mark is staged, any other entry is reset, and the full
refresh follows exactly when the returned status code is non-negative. -/
def AddRevertSpec (c : Commands) (st : RepoState) (f : String) : Prop :=
  let r := add_revert_file c st
  let toStage := startswith f " " || startswith f "?"
  let err := if toStage then (c.git_add_file (sliceFrom f 3)).2
             else (c.git_reset_file (sliceFrom f 3)).2
  r.2.head? = some (if toStage then Event.cmdAddFile (sliceFrom f 3)
                    else Event.cmdResetFile (sliceFrom f 3))
  ∧ (if err < 0 then r.1 = st ∧ Event.cmdGetBranches ∉ r.2
     else r.1 = (refresh_git_status c st).1 ∧ Event.cmdGetBranches ∈ r.2)

/-- credential handling of push and pull: each action runs its command exactly
once; with credentials present no prompt is shown, and with credentials absent
exactly one prompt sequence is shown, before anything else. -/
def CredOnceSpec (c : Commands) (st : RepoState) : Prop :=
  let rp := pull_repo_branch_cred c st
  let rq := push_repo_branch_cred c st
  rp.2.countP Event.isPull = 1
  ∧ rq.2.countP Event.isPush = 1
  ∧ (if st.credentials_entered then
       rp.2.countP Event.isCred = 0 ∧ rq.2.countP Event.isCred = 0
     else
       rp.2.countP Event.isCred = 1 ∧ rp.2.head? = some Event.credentialPrompt
       ∧ rq.2.countP Event.isCred = 1 ∧ rq.2.head? = some Event.credentialPrompt)

/-- behavior when every query fails: each query operation leaves the state
unchanged and shows the error popup naming the failure, the full refresh leaves
the whole state unchanged, and the refresh still attempts all four queries, so a
failed fetch aborts none of the others. -/
def QueryFailSpec (c : Commands) (st : RepoState) (b : String) : Prop :=
  (get_repo_status_short c st).1 = st
  ∧ Event.errorPopup "Cannot get git status" c.git_status_short.1 ∈ (get_repo_status_short c st).2
  ∧ (get_repo_remotes c st).1 = st
  ∧ Event.errorPopup "Cannot get git remotes" c.git_get_remotes.1 ∈ (get_repo_remotes c st).2
  ∧ (get_repo_branches c st).1 = st
  ∧ Event.errorPopup "Cannot get git branches" c.git_get_branches.1 ∈ (get_repo_branches c st).2
  ∧ (get_recent_commits c st).1 = st
  ∧ Event.errorPopup "Cannot get recent commits" (c.git_get_recent_commits (sliceFrom b 2)).1
      ∈ (get_recent_commits c st).2
  ∧ (show_remote_info c st).1 = st
  ∧ Event.errorPopup "Cannot get remote info" (c.git_get_remote_info st.remotes_menu.get).1
      ∈ (show_remote_info c st).2
  ∧ (refresh_git_status c st).1 = st
  ∧ Event.cmdGetBranches ∈ (refresh_git_status c st).2
  ∧ Event.cmdGetRemotes ∈ (refresh_git_status c st).2
  ∧ Event.cmdStatusShort ∈ (refresh_git_status c st).2
  ∧ Event.cmdGetRecentCommits (sliceFrom b 2) ∈ (refresh_git_status c st).2

/-- create-branch contract: an empty name shows the validation error and invokes
no Command Runner operation; a non-empty name invokes create-branch exactly once
with that name, always clears the input and always triggers the refresh. -/
def CreateBranchSpec (c : Commands) (st : RepoState) : Prop :=
  let r := create_new_branch c st
  if st.new_branch_textbox.length = 0 then
    r.1 = st
    ∧ r.2 = [Event.errorPopup "ERROR - Illegal branchname" "Please enter a valid branchname."]
    ∧ r.2.countP Event.isCmd = 0
  else
    r.2.head? = some (Event.cmdCreateBranch st.new_branch_textbox)
    ∧ r.2.countP Event.isCreate = 1
    ∧ r.1.new_branch_textbox = ""
    ∧ Event.cmdGetBranches ∈ r.2
    ∧ r.1 = (refresh_git_status c { st with new_branch_textbox := "" }).1

/-- add-remote contract: the two prompts come first and compose one pending
operation whose slot is consumed, the add-remote command is invoked with the two
captured inputs, and the refresh is skipped exactly when the status is negative,
in which case the whole state apart from the consumed slot is untouched. -/
def AddRemoteSpec (c : Commands) (st : RepoState) (remote_name remote_url : String) : Prop :=
  let r := add_remote_flow c st remote_name remote_url
  r.2.take 2 = [Event.textBoxPopup "Please enter the new remote name.",
                Event.textBoxPopup "Please enter the new remote url."]
  ∧ Event.cmdAddRemote (some remote_name) remote_url ∈ r.2
  ∧ r.1.utility_var = none
  ∧ (if (c.git_add_remote (some remote_name) remote_url).2 < 0 then
       r.1 = { st with utility_var := none } ∧ Event.cmdGetBranches ∉ r.2
     else Event.cmdGetBranches ∈ r.2)

/-- open-editor contract for a selected file: the launch receives the current
working directory itself, which differs from the joined file path, and no launch
with the joined path occurs. -/
def OpenEditorSpec (c : Commands) (st : RepoState) (cwd f e : String) : Prop :=
  let r := open_editor c st cwd (some f)
  r.2.head? = some (Event.cmdOpenEditor e cwd)
  ∧ pathJoin cwd f ≠ cwd
  ∧ Event.cmdOpenEditor e (pathJoin cwd f) ∉ r.2

/-- toggle contract: the editor type Internal becomes External and every other
value becomes Internal; from either of the two values, toggling twice restores
the original value. -/
def ToggleSpec (st s2 : SettingsState) : Prop :=
  ((toggle_editor_type st).editor_type =
    (if st.editor_type = "Internal" then "External" else "Internal"))
  ∧ (toggle_editor_type (toggle_editor_type s2)).editor_type = s2.editor_type

theorem scanBranch_le (l : List String) : scanBranch l ≤ l.length := by
  induction l with
  | nil => simp [scanBranch]
  | cons b rest ih =>
    unfold scanBranch
    split
    · exact Nat.zero_le _
    · simpa using Nat.succ_le_succ ih

theorem scanBranch_lt_elem (l : List String) (j : Nat) (hj : j < scanBranch l)
    (b : String) (hb : l[j]? = some b) : startswith b "*" = false := by
  induction l generalizing j with
  | nil => simp [scanBranch] at hj
  | cons hd rest ih =>
    unfold scanBranch at hj
    by_cases hh : startswith hd "*"
    · simp [hh] at hj
    · rw [if_neg hh] at hj
      cases j with
      | zero =>
        simp only [List.getElem?_cons_zero, Option.some.injEq] at hb
        subst hb
        exact Bool.not_eq_true _ ▸ (by simpa using hh)
      | succ j2 =>
        simp only [List.getElem?_cons_succ] at hb
        exact ih j2 (Nat.lt_of_succ_lt_succ hj) hb

theorem scanBranch_self_elem (l : List String) (b : String)
    (hb : l[scanBranch l]? = some b) : startswith b "*" = true := by
  induction l with
  | nil => simp [scanBranch] at hb
  | cons hd rest ih =>
    unfold scanBranch at hb
    by_cases hh : startswith hd "*"
    · simp only [if_pos hh, List.getElem?_cons_zero, Option.some.injEq] at hb
      subst hb
      exact hh
    · rw [if_neg hh] at hb
      simp only [List.getElem?_cons_succ] at hb
      exact ih hb

theorem scanBranch_eq_length_iff (l : List String) :
    scanBranch l = l.length ↔ ∀ b ∈ l, startswith b "*" = false := by
  induction l with
  | nil => simp [scanBranch]
  | cons hd rest ih =>
    unfold scanBranch
    by_cases hh : startswith hd "*"
    · simp only [if_pos hh, List.length_cons, List.mem_cons]
      constructor
      · intro h
        omega
      · intro h
        have := h hd (Or.inl rfl)
        simp [hh] at this
    · simp only [if_neg hh, List.length_cons, List.mem_cons, Nat.succ_inj]
      rw [ih]
      constructor
      · intro h b hb
        rcases hb with rfl | hb
        · simpa using hh
        · exact h b hb
      · intro h b hb
        exact h b (Or.inr hb)

theorem branches_remotes_menu (c : Commands) (st : RepoState) :
    ((get_repo_branches c st).1).remotes_menu = st.remotes_menu := by
  simp only [get_repo_branches]
  split <;> rfl

theorem branches_add_files_menu (c : Commands) (st : RepoState) :
    ((get_repo_branches c st).1).add_files_menu = st.add_files_menu := by
  simp only [get_repo_branches]
  split <;> rfl

theorem branches_utility_var (c : Commands) (st : RepoState) :
    ((get_repo_branches c st).1).utility_var = st.utility_var := by
  simp only [get_repo_branches]
  split <;> rfl

theorem branches_new_branch_textbox (c : Commands) (st : RepoState) :
    ((get_repo_branches c st).1).new_branch_textbox = st.new_branch_textbox := by
  simp only [get_repo_branches]
  split <;> rfl

theorem remotes_add_files_menu (c : Commands) (st : RepoState) :
    ((get_repo_remotes c st).1).add_files_menu = st.add_files_menu := by
  simp only [get_repo_remotes]
  split <;> rfl

theorem remotes_utility_var (c : Commands) (st : RepoState) :
    ((get_repo_remotes c st).1).utility_var = st.utility_var := by
  simp only [get_repo_remotes]
  split <;> rfl

theorem remotes_new_branch_textbox (c : Commands) (st : RepoState) :
    ((get_repo_remotes c st).1).new_branch_textbox = st.new_branch_textbox := by
  simp only [get_repo_remotes]
  split <;> rfl

theorem remotes_menu_success (c : Commands) (st : RepoState) (h : ¬ c.git_get_remotes.2 < 0) :
    ((get_repo_remotes c st).1).remotes_menu = ⟨splitlines c.git_get_remotes.1, 0⟩ := by
  simp only [get_repo_remotes]
  rw [if_neg h]
  simp [Menu.clear, Menu.add_item_list]

theorem status_remotes_menu (c : Commands) (st : RepoState) :
    ((get_repo_status_short c st).1).remotes_menu = st.remotes_menu := by
  simp only [get_repo_status_short]
  split <;> rfl

theorem status_utility_var (c : Commands) (st : RepoState) :
    ((get_repo_status_short c st).1).utility_var = st.utility_var := by
  simp only [get_repo_status_short]
  split <;> rfl

theorem status_new_branch_textbox (c : Commands) (st : RepoState) :
    ((get_repo_status_short c st).1).new_branch_textbox = st.new_branch_textbox := by
  simp only [get_repo_status_short]
  split <;> rfl

theorem status_add_files_success (c : Commands) (st : RepoState) (h : ¬ c.git_status_short.2 < 0) :
    ((get_repo_status_short c st).1).add_files_menu = ⟨splitlines c.git_status_short.1, 0⟩ := by
  simp only [get_repo_status_short]
  rw [if_neg h]
  simp [Menu.clear, Menu.add_item_list]

theorem commits_remotes_menu (c : Commands) (st : RepoState) :
    ((get_recent_commits c st).1).remotes_menu = st.remotes_menu := by
  simp only [get_recent_commits]
  split
  · rfl
  · split <;> rfl

theorem commits_add_files_menu (c : Commands) (st : RepoState) :
    ((get_recent_commits c st).1).add_files_menu = st.add_files_menu := by
  simp only [get_recent_commits]
  split
  · rfl
  · split <;> rfl

theorem commits_utility_var (c : Commands) (st : RepoState) :
    ((get_recent_commits c st).1).utility_var = st.utility_var := by
  simp only [get_recent_commits]
  split
  · rfl
  · split <;> rfl

theorem commits_new_branch_textbox (c : Commands) (st : RepoState) :
    ((get_recent_commits c st).1).new_branch_textbox = st.new_branch_textbox := by
  simp only [get_recent_commits]
  split
  · rfl
  · split <;> rfl

theorem refresh_utility_var (c : Commands) (st : RepoState) :
    ((refresh_git_status c st).1).utility_var = st.utility_var := by
  simp only [refresh_git_status]
  split <;> split <;>
    simp only [commits_utility_var, status_utility_var, remotes_utility_var, branches_utility_var]

theorem refresh_new_branch_textbox (c : Commands) (st : RepoState) :
    ((refresh_git_status c st).1).new_branch_textbox = st.new_branch_textbox := by
  simp only [refresh_git_status]
  split <;> split <;>
    simp only [commits_new_branch_textbox, status_new_branch_textbox, remotes_new_branch_textbox,
      branches_new_branch_textbox]

theorem branches_trace_mem (c : Commands) (st : RepoState) :
    Event.cmdGetBranches ∈ (get_repo_branches c st).2 := by
  simp only [get_repo_branches]
  split <;> simp

theorem remotes_trace_mem (c : Commands) (st : RepoState) :
    Event.cmdGetRemotes ∈ (get_repo_remotes c st).2 := by
  simp only [get_repo_remotes]
  split <;> simp

theorem status_trace_mem (c : Commands) (st : RepoState) :
    Event.cmdStatusShort ∈ (get_repo_status_short c st).2 := by
  simp only [get_repo_status_short]
  split <;> simp

theorem refresh_trace_mem_branches (c : Commands) (st : RepoState) :
    Event.cmdGetBranches ∈ (refresh_git_status c st).2 := by
  simp only [refresh_git_status, List.mem_append]
  exact Or.inl (Or.inl (Or.inl (branches_trace_mem c st)))

theorem refresh_trace_mem_remotes (c : Commands) (st : RepoState) :
    Event.cmdGetRemotes ∈ (refresh_git_status c st).2 := by
  simp only [refresh_git_status, List.mem_append]
  exact Or.inl (Or.inl (Or.inr (remotes_trace_mem c _)))

theorem refresh_trace_mem_status (c : Commands) (st : RepoState) :
    Event.cmdStatusShort ∈ (refresh_git_status c st).2 := by
  simp only [refresh_git_status, List.mem_append]
  exact Or.inl (Or.inr (status_trace_mem c _))

theorem branches_trace_queryish (c : Commands) (st : RepoState) :
    ∀ e ∈ (get_repo_branches c st).2, e.isQueryish = true := by
  simp only [get_repo_branches]
  split <;> intro e he <;> simp only [List.mem_cons, List.not_mem_nil, or_false] at he
  · rcases he with rfl | rfl <;> rfl
  · rcases he with rfl
    rfl

theorem remotes_trace_queryish (c : Commands) (st : RepoState) :
    ∀ e ∈ (get_repo_remotes c st).2, e.isQueryish = true := by
  simp only [get_repo_remotes]
  split <;> intro e he <;> simp only [List.mem_cons, List.not_mem_nil, or_false] at he
  · rcases he with rfl | rfl <;> rfl
  · rcases he with rfl
    rfl

theorem status_trace_queryish (c : Commands) (st : RepoState) :
    ∀ e ∈ (get_repo_status_short c st).2, e.isQueryish = true := by
  simp only [get_repo_status_short]
  split <;> intro e he <;> simp only [List.mem_cons, List.not_mem_nil, or_false] at he
  · rcases he with rfl | rfl <;> rfl
  · rcases he with rfl
    rfl

theorem commits_trace_queryish (c : Commands) (st : RepoState) :
    ∀ e ∈ (get_recent_commits c st).2, e.isQueryish = true := by
  simp only [get_recent_commits]
  split
  · intro e he
    simp at he
  · split <;> intro e he <;> simp only [List.mem_cons, List.not_mem_nil, or_false] at he
    · rcases he with rfl | rfl <;> rfl
    · rcases he with rfl
      rfl

theorem refresh_trace_queryish (c : Commands) (st : RepoState) :
    ∀ e ∈ (refresh_git_status c st).2, e.isQueryish = true := by
  simp only [refresh_git_status, List.mem_append]
  intro e he
  rcases he with ((h | h) | h) | h
  · exact branches_trace_queryish c st e h
  · exact remotes_trace_queryish c _ e h
  · exact status_trace_queryish c _ e h
  · exact commits_trace_queryish c _ e h

theorem refresh_countP_zero (p : Event → Bool) (hp : ∀ e : Event, e.isQueryish = true → p e = false)
    (c : Commands) (st : RepoState) : ((refresh_git_status c st).2).countP p = 0 := by
  refine List.countP_eq_zero.mpr ?_
  intro e he
  simp [hp e (refresh_trace_queryish c st e he)]

theorem queryish_not_pull (e : Event) (h : e.isQueryish = true) : e.isPull = false := by
  cases e <;> simp_all [Event.isQueryish, Event.isPull]

theorem queryish_not_push (e : Event) (h : e.isQueryish = true) : e.isPush = false := by
  cases e <;> simp_all [Event.isQueryish, Event.isPush]

theorem queryish_not_cred (e : Event) (h : e.isQueryish = true) : e.isCred = false := by
  cases e <;> simp_all [Event.isQueryish, Event.isCred]

theorem queryish_not_create (e : Event) (h : e.isQueryish = true) : e.isCreate = false := by
  cases e <;> simp_all [Event.isQueryish, Event.isCreate]

theorem branches_menu_success (c : Commands) (st : RepoState) (h : ¬ c.git_get_branches.2 < 0) :
    ((get_repo_branches c st).1).branch_menu =
      ⟨splitlines c.git_get_branches.1, scanBranch (splitlines c.git_get_branches.1)⟩ := by
  simp only [get_repo_branches]
  rw [if_neg h]
  simp [Menu.clear, Menu.add_item_list]

/-- C1 (corrected): after every successful branch refresh the selected index is the
index of the first entry whose text starts with the current marker; when no entry
bears the marker the index equals the item count, which is 0 only for an empty
list, rather than defaulting to index 0.  The two concrete examples of the claim
hold as stated. -/
theorem branch_selection_after_refresh (c : Commands) (st : RepoState)
    (h : ¬ c.git_get_branches.2 < 0) : BranchSelSpec c st := by
  simp only [BranchSelSpec, branches_menu_success c st h,
    branches_menu_success cStarFirst st (by decide),
    branches_menu_success cStarSecond st (by decide)]
  refine ⟨?_, ?_, scanBranch_eq_length_iff _, scanBranch_le _, by decide, by decide⟩
  · intro j hj b hb
    exact scanBranch_lt_elem _ j hj b hb
  · intro b hb
    exact scanBranch_self_elem _ b hb

/-- witness for branch_selection_after_refresh at a concrete runner and state. -/
theorem branch_selection_after_refresh_witness :
    ¬ cOk.git_get_branches.2 < 0 ∧ BranchSelSpec cOk stEx :=
  ⟨by decide, branch_selection_after_refresh cOk stEx (by decide)⟩

/-- C1 counterexample: for branch output without any current marker, the code sets
the selected index to the item count 2, not to the claimed default 0. -/
theorem branch_scan_marker_missing_cex :
    ((get_repo_branches cNoStar stEx).1).branch_menu.items = ["  main", "  dev"]
    ∧ startswith "  main" "*" = false
    ∧ startswith "  dev" "*" = false
    ∧ ((get_repo_branches cNoStar stEx).1).branch_menu.selected_item = 2
    ∧ ((get_repo_branches cNoStar stEx).1).branch_menu.selected_item ≠ 0 := by decide

/-- C6: after every commit attempt the commit-message input box is empty, for every
message and every status code the commit command returns. -/
theorem commit_clears_message_box (c : Commands) (st : RepoState) :
    ((commit c st).1).commit_message_box = "" := rfl

/-- witness for commit_clears_message_box at a concrete runner and state. -/
theorem commit_clears_message_box_witness : ((commit cOk stEx).1).commit_message_box = "" :=
  commit_clears_message_box cOk stEx

theorem toggle_editor_type_eq (s : SettingsState) :
    (toggle_editor_type s).editor_type =
      (if s.editor_type = "Internal" then "External" else "Internal") := by
  unfold toggle_editor_type refresh_status add_to_settings_log
  split <;> rfl

/-- C10: toggle_editor_type swaps Internal to External and any other editor type to
Internal, and applying it twice from either of the two values restores the
original editor type. -/
theorem toggle_editor_type_swaps (st s2 : SettingsState)
    (h : s2.editor_type = "Internal" ∨ s2.editor_type = "External") : ToggleSpec st s2 := by
  unfold ToggleSpec
  refine ⟨toggle_editor_type_eq st, ?_⟩
  rw [toggle_editor_type_eq, toggle_editor_type_eq]
  rcases h with h | h <;> rw [h] <;> decide

/-- witness for toggle_editor_type_swaps at a concrete settings state. -/
theorem toggle_editor_type_swaps_witness :
    (sEx.editor_type = "Internal" ∨ sEx.editor_type = "External") ∧ ToggleSpec sEx sEx :=
  ⟨Or.inl rfl, toggle_editor_type_swaps sEx sEx (Or.inl rfl)⟩

/-- C2 (corrected): after a refresh whose remotes and status queries succeed, each
of the two snapshotted panels keeps its prior selected index exactly when that
index is still below the new item count, and otherwise ends at 0, the reset left
by the panel clear; the index is never outside the new range. -/
theorem selection_restore_after_refresh (c : Commands) (st : RepoState)
    (hr : ¬ c.git_get_remotes.2 < 0) (hs : ¬ c.git_status_short.2 < 0) : SelRestoreSpec c st := by
  have hrm : ∀ s : RepoState,
      ((get_recent_commits c ((get_repo_status_short c ((get_repo_remotes c s).1)).1)).1).remotes_menu
        = ⟨splitlines c.git_get_remotes.1, 0⟩ := by
    intro s
    rw [commits_remotes_menu, status_remotes_menu, remotes_menu_success _ _ hr]
  have haf : ∀ s : RepoState,
      ((get_recent_commits c ((get_repo_status_short c ((get_repo_remotes c s).1)).1)).1).add_files_menu
        = ⟨splitlines c.git_status_short.1, 0⟩ := by
    intro s
    rw [commits_add_files_menu, status_add_files_success _ _ hs]
  have hlen : ∀ L : List String, L = [] ∨ 0 < L.length := by
    intro L
    cases L with
    | nil => exact Or.inl rfl
    | cons a l => exact Or.inr (by simp)
  simp only [SelRestoreSpec, refresh_git_status, Menu.get_item_list]
  rw [hrm, haf]
  dsimp only
  by_cases h1 : st.remotes_menu.selected_item < (splitlines c.git_get_remotes.1).length <;>
    by_cases h2 : st.add_files_menu.selected_item < (splitlines c.git_status_short.1).length <;>
    simp only [hrm, haf, h1, h2, if_true, if_false] <;>
    refine ⟨trivial, trivial, ?_, ?_⟩ <;>
    first
      | exact Or.inr trivial
      | exact hlen _

/-- witness for selection_restore_after_refresh at a concrete runner and state. -/
theorem selection_restore_after_refresh_witness :
    ¬ cTwoRemotes.git_get_remotes.2 < 0 ∧ ¬ cTwoRemotes.git_status_short.2 < 0
    ∧ SelRestoreSpec cTwoRemotes stShrink :=
  ⟨by decide, by decide, selection_restore_after_refresh cTwoRemotes stShrink (by decide) (by decide)⟩

/-- C2 counterexample: with prior remotes index 2 and a new remotes list of two
entries, the refresh leaves the selection at 0 instead of clamping it to the last
valid index 1. -/
theorem selection_clamp_missing_cex :
    stShrink.remotes_menu.selected_item = 2
    ∧ ((refresh_git_status cTwoRemotes stShrink).1).remotes_menu.items.length = 2
    ∧ ((refresh_git_status cTwoRemotes stShrink).1).remotes_menu.selected_item = 0
    ∧ ((refresh_git_status cTwoRemotes stShrink).1).remotes_menu.selected_item ≠ 2 - 1 := by
  decide

/-- C3 (corrected): the add/revert action stages an entry starting with a space or
a question mark and resets any other entry, and the full refresh follows exactly
when the returned status code is non-negative; a negative status shows the error
popup and skips the refresh. -/
theorem add_revert_file_dispatch (c : Commands) (st : RepoState) (f : String)
    (hget : st.add_files_menu.get = some f) : AddRevertSpec c st f := by
  simp only [AddRevertSpec, add_revert_file, hget]
  by_cases hlt : (if startswith f " " || startswith f "?" then (c.git_add_file (sliceFrom f 3)).2
      else (c.git_reset_file (sliceFrom f 3)).2) < 0
  · rw [if_pos hlt, if_pos hlt]
    refine ⟨rfl, rfl, ?_⟩
    by_cases hts : (startswith f " " || startswith f "?") = true <;>
      simp [hts]
  · rw [if_neg hlt, if_neg hlt]
    exact ⟨rfl, rfl, List.mem_cons_of_mem _ (refresh_trace_mem_branches c st)⟩

/-- witness for add_revert_file_dispatch at a concrete runner and state. -/
theorem add_revert_file_dispatch_witness :
    stEx.add_files_menu.get = some " M a.txt" ∧ AddRevertSpec cOk stEx " M a.txt" :=
  ⟨by decide, add_revert_file_dispatch cOk stEx " M a.txt" (by decide)⟩

/-- C3 counterexample: an unstaged entry whose stage command returns status -1
produces the error popup and no refresh at all, while the claim demands a refresh
for every status code. -/
theorem add_revert_no_refresh_on_negative_cex :
    (add_revert_file cAddNeg stEx).1 = stEx
    ∧ (add_revert_file cAddNeg stEx).2 =
        [Event.cmdAddFile "a.txt", Event.errorPopup "Cannot add/revert file  M a.txt" "boom"]
    ∧ Event.cmdGetBranches ∉ (add_revert_file cAddNeg stEx).2 := by
  decide

theorem refresh_no_pull (c : Commands) (st : RepoState) :
    ((refresh_git_status c st).2).countP Event.isPull = 0 :=
  refresh_countP_zero _ queryish_not_pull c st

theorem refresh_no_push (c : Commands) (st : RepoState) :
    ((refresh_git_status c st).2).countP Event.isPush = 0 :=
  refresh_countP_zero _ queryish_not_push c st

theorem refresh_no_cred (c : Commands) (st : RepoState) :
    ((refresh_git_status c st).2).countP Event.isCred = 0 :=
  refresh_countP_zero _ queryish_not_cred c st

theorem refresh_no_create (c : Commands) (st : RepoState) :
    ((refresh_git_status c st).2).countP Event.isCreate = 0 :=
  refresh_countP_zero _ queryish_not_create c st

theorem pull_trace_counts (c : Commands) (s : RepoState) (b : String)
    (hb : s.branch_menu.get = some b) :
    ((pull_repo_branch c s).2).countP Event.isPull = 1
    ∧ ((pull_repo_branch c s).2).countP Event.isCred = 0 := by
  simp only [pull_repo_branch, hb]
  split <;>
    simp [List.countP_cons, List.countP_append, refresh_no_pull, refresh_no_cred,
      Event.isPull, Event.isCred]

theorem push_trace_counts (c : Commands) (s : RepoState) (b : String)
    (hb : s.branch_menu.get = some b) :
    ((push_repo_branch c s).2).countP Event.isPush = 1
    ∧ ((push_repo_branch c s).2).countP Event.isCred = 0 := by
  simp only [push_repo_branch, hb]
  simp [List.countP_cons, List.countP_append, refresh_no_push, refresh_no_cred,
    Event.isPush, Event.isCred]

theorem show_push_result_counts (s : RepoState) :
    ((show_push_result s).2).countP Event.isPush = 0
    ∧ ((show_push_result s).2).countP Event.isCred = 0 := by
  simp only [show_push_result]
  split <;> simp [Event.isPush, Event.isCred]

/-- C4: a push or pull action with credentials absent triggers exactly one
credential prompt sequence, shown before anything else, and the underlying
command still executes exactly once; with credentials present no prompt is shown
and the command executes exactly once, directly. -/
theorem cred_prompt_once (c : Commands) (st : RepoState) (b : String)
    (hb : st.branch_menu.get = some b) : CredOnceSpec c st := by
  have hb1 : ({ st with credentials_entered := true } : RepoState).branch_menu.get = some b := hb
  have hpull := pull_trace_counts c st b hb
  have hpull1 := pull_trace_counts c { st with credentials_entered := true } b hb1
  have hpush := push_trace_counts c st b hb
  have hpush1 := push_trace_counts c { st with credentials_entered := true } b hb1
  have hres1 := show_push_result_counts (push_repo_branch c { st with credentials_entered := true }).1
  have hres := show_push_result_counts (push_repo_branch c st).1
  simp only [CredOnceSpec, pull_repo_branch_cred, push_repo_branch_cred, ask_credentials,
    perform_long_operation]
  cases hcred : st.credentials_entered with
  | true =>
    simp only [hcred, Bool.not_true, Bool.false_eq_true, if_false, if_true]
    refine ⟨hpull.1, ?_, ?_, ?_⟩ <;>
      simp [List.countP_cons, List.countP_append, hpull.2, hpush.1, hpush.2,
        hres.1, hres.2, Event.isPush, Event.isCred, Event.isPull]
  | false =>
    simp only [hcred, Bool.not_false, Bool.false_eq_true, if_false, if_true]
    refine ⟨?_, ?_, ?_, rfl, ?_, rfl⟩ <;>
      simp [List.countP_cons, List.countP_append, hpull1.1, hpull1.2, hpush1.1, hpush1.2,
        hres1.1, hres1.2, Event.isPush, Event.isCred, Event.isPull]

/-- witness for cred_prompt_once at a concrete runner and state. -/
theorem cred_prompt_once_witness :
    stEx.branch_menu.get = some "* main" ∧ CredOnceSpec cOk stEx :=
  ⟨by decide, cred_prompt_once cOk stEx "* main" (by decide)⟩

/-- C5: when every query returns a negative status, each query operation leaves
the state unchanged and shows its error popup, the full refresh leaves the whole
state unchanged, and the refresh still attempts all four queries: a failed fetch
aborts none of the other fetches. -/
theorem query_failure_preserves_state (c : Commands) (st : RepoState) (b : String)
    (hb : st.branch_menu.get = some b)
    (h1 : c.git_status_short.2 < 0) (h2 : c.git_get_remotes.2 < 0)
    (h3 : c.git_get_branches.2 < 0)
    (h4 : (c.git_get_recent_commits (sliceFrom b 2)).2 < 0)
    (h5 : (c.git_get_remote_info st.remotes_menu.get).2 < 0) :
    QueryFailSpec c st b := by
  have e1 : get_repo_status_short c st
      = (st, [Event.cmdStatusShort,
              Event.errorPopup "Cannot get git status" c.git_status_short.1]) := by
    simp only [get_repo_status_short]
    rw [if_pos h1]
  have e2 : get_repo_remotes c st
      = (st, [Event.cmdGetRemotes,
              Event.errorPopup "Cannot get git remotes" c.git_get_remotes.1]) := by
    simp only [get_repo_remotes]
    rw [if_pos h2]
  have e3 : get_repo_branches c st
      = (st, [Event.cmdGetBranches,
              Event.errorPopup "Cannot get git branches" c.git_get_branches.1]) := by
    simp only [get_repo_branches]
    rw [if_pos h3]
  have e4 : get_recent_commits c st
      = (st, [Event.cmdGetRecentCommits (sliceFrom b 2),
              Event.errorPopup "Cannot get recent commits"
                (c.git_get_recent_commits (sliceFrom b 2)).1]) := by
    simp only [get_recent_commits, hb]
    rw [if_pos h4]
  have e5 : show_remote_info c st
      = (st, [Event.cmdGetRemoteInfo st.remotes_menu.get,
              Event.errorPopup "Cannot get remote info"
                (c.git_get_remote_info st.remotes_menu.get).1]) := by
    simp only [show_remote_info, hb]
    rw [if_pos h5]
  have est : (refresh_git_status c st).1 = st := by
    simp only [refresh_git_status, Menu.get_item_list, e3, e2, e1, e4]
    split <;> split <;> rfl
  have etr : (refresh_git_status c st).2
      = [Event.cmdGetBranches, Event.errorPopup "Cannot get git branches" c.git_get_branches.1]
        ++ [Event.cmdGetRemotes, Event.errorPopup "Cannot get git remotes" c.git_get_remotes.1]
        ++ [Event.cmdStatusShort, Event.errorPopup "Cannot get git status" c.git_status_short.1]
        ++ [Event.cmdGetRecentCommits (sliceFrom b 2),
            Event.errorPopup "Cannot get recent commits"
              (c.git_get_recent_commits (sliceFrom b 2)).1] := by
    simp only [refresh_git_status, e3, e2, e1, e4]
  unfold QueryFailSpec
  refine ⟨by rw [e1], by rw [e1]; simp, by rw [e2], by rw [e2]; simp, by rw [e3],
    by rw [e3]; simp, by rw [e4], by rw [e4]; simp, by rw [e5], by rw [e5]; simp,
    est, by rw [etr]; simp, by rw [etr]; simp, by rw [etr]; simp, by rw [etr]; simp⟩

/-- witness for query_failure_preserves_state at a concrete runner and state. -/
theorem query_failure_preserves_state_witness :
    stEx.branch_menu.get = some "* main"
    ∧ cFail.git_status_short.2 < 0 ∧ cFail.git_get_remotes.2 < 0
    ∧ cFail.git_get_branches.2 < 0
    ∧ (cFail.git_get_recent_commits (sliceFrom "* main" 2)).2 < 0
    ∧ (cFail.git_get_remote_info stEx.remotes_menu.get).2 < 0
    ∧ QueryFailSpec cFail stEx "* main" :=
  ⟨by decide, by decide, by decide, by decide, by decide, by decide,
   query_failure_preserves_state cFail stEx "* main" (by decide) (by decide) (by decide)
     (by decide) (by decide) (by decide)⟩

/-- C7: the create-branch action with an empty name shows the validation error and
invokes no Command Runner operation; with a non-empty name it invokes create with
exactly that name, always clears the input and always triggers the refresh,
whatever the returned status code. -/
theorem create_new_branch_validation (c : Commands) (st : RepoState) :
    CreateBranchSpec c st := by
  simp only [CreateBranchSpec, create_new_branch]
  by_cases hn : st.new_branch_textbox.length = 0
  · simp only [hn, if_true, if_pos]
    exact ⟨by trivial, by trivial, by decide⟩
  · simp only [hn, if_false]
    refine ⟨by trivial, ?_, ?_, ?_, by trivial⟩
    · split <;>
        simp [List.countP_cons, List.countP_append, refresh_no_create, Event.isCreate]
    · rw [refresh_new_branch_textbox]
    · simp [List.mem_append, refresh_trace_mem_branches]

/-- witness for create_new_branch_validation at a concrete runner and state. -/
theorem create_new_branch_validation_witness : CreateBranchSpec cOk stEx :=
  create_new_branch_validation cOk stEx

/-- C8 (corrected): the two prompts compose one pending operation consumed by the
add-remote command, and the refresh is skipped exactly when the returned status is
negative; for a positive failing status the remotes panel is still cleared and
refreshed, so the prior remote list does not stay visible for every failure. -/
theorem add_remote_flow_behavior (c : Commands) (st : RepoState)
    (remote_name remote_url : String) : AddRemoteSpec c st remote_name remote_url := by
  simp only [AddRemoteSpec, add_remote_flow, ask_new_remote_name, ask_new_remote_url, add_remote]
  by_cases hlt : (c.git_add_remote (some remote_name) remote_url).2 < 0
  · simp only [hlt, if_true, if_pos]
    refine ⟨by trivial, by simp, by trivial, by trivial, by simp⟩
  · simp only [hlt, if_false]
    refine ⟨by trivial, by simp, ?_, ?_⟩
    · rw [refresh_utility_var]
    · simp [List.mem_append, refresh_trace_mem_branches]

/-- witness for add_remote_flow_behavior at a concrete runner and state. -/
theorem add_remote_flow_behavior_witness : AddRemoteSpec cOk stEx "upstream" "u.git" :=
  add_remote_flow_behavior cOk stEx "upstream" "u.git"

/-- C8 counterexample: a positive failing add-remote status still clears and
refreshes the remotes panel, replacing the prior remote list. -/
theorem add_remote_refresh_on_positive_failure_cex :
    stEx.remotes_menu.items = ["origin"]
    ∧ (cRemPos.git_add_remote (some "upstream") "u.git").2 = 1
    ∧ ((add_remote_flow cRemPos stEx "upstream" "u.git").1).remotes_menu.items = ["o1", "o2"]
    ∧ Event.cmdGetBranches ∈ (add_remote_flow cRemPos stEx "upstream" "u.git").2 := by
  decide

theorem string_length_append (s t : String) : (s ++ t).length = s.length + t.length := by
  cases s with
  | mk d1 =>
    cases t with
    | mk d2 =>
      show (d1 ++ d2).length = d1.length + d2.length
      exact List.length_append d1 d2

/-- C9: with an editor configured and a file selected, the editor launch receives
the current working directory itself, which differs from the joined file path,
and no launch with the joined path occurs. -/
theorem open_editor_ignores_join (c : Commands) (st : RepoState) (cwd f e : String)
    (he : st.default_editor = some e) (hf : f.length ≠ 0)
    (habs : startswith f "/" = false) : OpenEditorSpec c st cwd f e := by
  have hjoin : pathJoin cwd f ≠ cwd := by
    unfold pathJoin
    simp only [habs, Bool.false_eq_true, if_false]
    split
    · intro hEq
      have hl := congrArg String.length hEq
      rw [string_length_append] at hl
      omega
    · intro hEq
      have hl := congrArg String.length hEq
      rw [string_length_append, string_length_append] at hl
      have hone : ("/" : String).length = 1 := rfl
      rw [hone] at hl
      omega
  simp only [OpenEditorSpec, open_editor, he]
  refine ⟨?_, hjoin, ?_⟩
  · split <;> rfl
  · split <;> simp [hjoin]

/-- witness for open_editor_ignores_join at a concrete runner and state. -/
theorem open_editor_ignores_join_witness :
    stEx.default_editor = some "vim" ∧ ("a.txt" : String).length ≠ 0
    ∧ startswith "a.txt" "/" = false ∧ OpenEditorSpec cOk stEx "/repo" "a.txt" "vim" :=
  ⟨by decide, by decide, by decide,
   open_editor_ignores_join cOk stEx "/repo" "a.txt" "vim" (by decide) (by decide) (by decide)⟩
